import Mathlib

/-!
Verification of the document-query facade in lib/scraper.py.

The facade (class Scraper) wraps an HTTP client (requests) and an HTML
query engine (BeautifulSoup).  The engine and the client are external
collaborators: a parsed document is modelled as an opaque handle exposing
the query operations the facade delegates to, and the HTTP world is an
explicit oracle mapping a URL and headers to an outcome.  The facade
methods themselves are translated line by line from lib/scraper.py.
-/

/-- An element handle produced by the HTML query engine (a bs4 Tag):
its tag name, its attribute mapping, and the text that
el.get_text(strip=True) yields for it (text extraction is delegated to
the engine, so the stripped text is carried as data). -/
structure Element where
  tag : String
  attrs : List (String × String)
  strippedText : String
deriving DecidableEq

/-- Python truthiness of a bs4 Tag: Tag.__bool__ returns True
("A tag is non-None even if it has no contents"), so every element
handle is truthy in an if-test. -/
def Element.truthy (_ : Element) : Bool := true

/-- el.get(name): the value of the named attribute, or None when the
attribute is not set on the element. -/
def Element.get (el : Element) (name : String) : Option String :=
  (el.attrs.find? (fun p => p.1 == name)).map Prod.snd

/-- The parsed-document handle (the soup): the query operations the
engine exposes, per document.  CSS selection and tag queries return
matches in document order. -/
structure Soup where
  select : String → List Element
  find_all : String → List (String × String) → List Element

/-- BeautifulSoup soup.select_one(sel): the first document-order match
of soup.select(sel), or None when there is none (the engine implements
select_one as select with limit 1). -/
def Soup.select_one (soup : Soup) (selector : String) : Option Element :=
  (soup.select selector).head?

/-- BeautifulSoup soup.find(tag, attrs): the first match of
soup.find_all(tag, attrs), or None. -/
def Soup.find (soup : Soup) (tag_name : String)
    (kwargs : List (String × String)) : Option Element :=
  (soup.find_all tag_name kwargs).head?

/-- Errors the facade can surface: ValueError when no document is loaded
(the NotLoadedError of the spec), requests transport failures
(FetchError), requests.HTTPError from raise_for_status
(HttpStatusError), and the NameError raised by get_all_attributes. -/
inductive ScrapeError where
  | notLoaded
  | fetchError
  | httpStatusError (status : Nat)
  | nameError
deriving DecidableEq

/-- Outcome of one requests.get call: a final response with a status
code and a text body, or a transport failure (DNS, connection, timeout)
in which requests raises before any response exists. -/
inductive HttpResult where
  | response (status : Nat) (body : String)
  | failure

/-- The default header mapping of load_from_url. -/
def defaultHeaders : List (String × String) := [("user-agent", "my-app/0.0.1")]

/-- The facade state: the parsed document handle (soup) and the raw
markup (html_content), both None until a load completes. -/
structure Scraper where
  soup : Option Soup
  html_content : Option String

/-- The state right after the two assignments in __init__, before the
url check: both fields None. -/
def Scraper.empty : Scraper := ⟨none, none⟩

/-- load_from_url(url, headers=None): defaults the headers, performs one
GET through the oracle, calls response.raise_for_status() — which in
requests raises HTTPError exactly when 400 <= status < 600 — and on
success replaces both fields from the response body.  parse is the
BeautifulSoup constructor of the engine. -/
def Scraper.load_from_url (parse : String → Soup)
    (http : String → List (String × String) → HttpResult)
    (_self : Scraper) (url : String)
    (headers : Option (List (String × String))) : Except ScrapeError Scraper :=
  let hs := headers.getD defaultHeaders
  match http url hs with
  | .failure => .error .fetchError
  | .response status body =>
    if 400 ≤ status ∧ status < 600 then
      .error (.httpStatusError status)
    else
      .ok ⟨some (parse body), some body⟩

/-- load_html(html_string): replaces both fields from the given markup,
discarding the previous state entirely. -/
def Scraper.load_html (parse : String → Soup) (_self : Scraper)
    (html_string : String) : Scraper :=
  ⟨some (parse html_string), some html_string⟩

/-- __init__(url=None): both fields start as None; then `if url:` tests
the argument by Python truthiness, so None and the empty string both
skip the eager load_from_url call. -/
def Scraper.init (parse : String → Soup)
    (http : String → List (String × String) → HttpResult)
    (url : Option String) : Except ScrapeError Scraper :=
  match url with
  | none => .ok Scraper.empty
  | some u =>
    if u = "" then .ok Scraper.empty
    else Scraper.empty.load_from_url parse http u none

/-- select(selector): raises ValueError when no document is loaded,
otherwise delegates to soup.select. -/
def Scraper.select (self : Scraper) (selector : String) :
    Except ScrapeError (List Element) :=
  match self.soup with
  | none => .error .notLoaded
  | some soup => .ok (soup.select selector)

/-- select_one(selector): raises ValueError when no document is loaded,
otherwise delegates to soup.select_one. -/
def Scraper.select_one (self : Scraper) (selector : String) :
    Except ScrapeError (Option Element) :=
  match self.soup with
  | none => .error .notLoaded
  | some soup => .ok (soup.select_one selector)

/-- find_all(tag_name, **kwargs): raises ValueError when no document is
loaded, otherwise delegates to soup.find_all. -/
def Scraper.find_all (self : Scraper) (tag_name : String)
    (kwargs : List (String × String)) : Except ScrapeError (List Element) :=
  match self.soup with
  | none => .error .notLoaded
  | some soup => .ok (soup.find_all tag_name kwargs)

/-- find(tag_name, **kwargs): raises ValueError when no document is
loaded, otherwise delegates to soup.find. -/
def Scraper.find (self : Scraper) (tag_name : String)
    (kwargs : List (String × String)) : Except ScrapeError (Option Element) :=
  match self.soup with
  | none => .error .notLoaded
  | some soup => .ok (soup.find tag_name kwargs)

/-- get_text(selector): selects, takes el.get_text(strip=True) of each
match, and joins the texts with a single space. -/
def Scraper.get_text (self : Scraper) (selector : String) :
    Except ScrapeError String :=
  match self.select selector with
  | .error e => .error e
  | .ok elements =>
    .ok (" ".intercalate (elements.map (fun el => el.strippedText)))

/-- get_text_from_element(element): empty string for None, otherwise
el.get_text(strip=True).  Never fails. -/
def Scraper.get_text_from_element (_self : Scraper)
    (element : Option Element) : String :=
  match element with
  | none => ""
  | some el => el.strippedText

/-- get_attribute(selector, attribute): select_one, then `if element:`
(Tags are always truthy) returns element.get(attribute), else None. -/
def Scraper.get_attribute (self : Scraper) (selector attributeName : String) :
    Except ScrapeError (Option String) :=
  match self.select_one selector with
  | .error e => .error e
  | .ok element =>
    match element with
    | some el => if el.truthy then .ok (el.get attributeName) else .ok none
    | none => .ok none

/-- get_all_attributes(self, selector): the body is the comprehension
[el.get(attribute) for el in elements if el], but the signature declares
no attribute parameter and no global or builtin of that name exists, so
evaluating el.get(attribute) at the first truthy element raises
NameError; an empty selection never evaluates the expression and yields
the empty list. -/
def Scraper.get_all_attributes (self : Scraper) (selector : String) :
    Except ScrapeError (List (Option String)) :=
  match self.select selector with
  | .error e => .error e
  | .ok elements =>
    if elements.any Element.truthy then .error .nameError else .ok []

/-- title property: soup.find("title") when a document is loaded, else
None; then the trimmed text of that tag, or empty string when absent. -/
def Scraper.title (self : Scraper) : String :=
  let title_tag :=
    match self.soup with
    | some soup => soup.find "title" []
    | none => none
  match title_tag with
  | some t => if t.truthy then t.strippedText else ""
  | none => ""

/-! Concrete fixtures for witnesses and counterexamples: one list item
element with no attributes, a document handle matching it under the
selector and tag "li", and a constant engine and HTTP oracles. -/

/-- A concrete element: an li tag with no attributes and text "Item 1". -/
def liElement : Element := ⟨"li", [], "Item 1"⟩

/-- A concrete document handle: selector and tag "li" match liElement,
everything else matches nothing. -/
def sampleSoup : Soup :=
  ⟨fun sel => if sel = "li" then [liElement] else [],
   fun tag _ => if tag = "li" then [liElement] else []⟩

/-- A concrete markup string for the fixtures. -/
def sampleMarkup : String := "<ul><li>Item 1</li></ul>"

/-- A concrete parse function standing in for the engine. -/
def sampleParse : String → Soup := fun _ => sampleSoup

/-- An HTTP oracle answering every request with status 200. -/
def http200 : String → List (String × String) → HttpResult :=
  fun _ _ => .response 200 "OK-BODY"

/-- An HTTP oracle answering every request with status 304. -/
def http304 : String → List (String × String) → HttpResult :=
  fun _ _ => .response 304 "BODY-304"

/-- An HTTP oracle answering every request with status 404. -/
def http404 : String → List (String × String) → HttpResult :=
  fun _ _ => .response 404 "NOT-FOUND"

/-! Claims. -/

/-- C1: on a facade in the Empty state (document absent), select,
select_one, find_all, find, get_text, get_attribute and
get_all_attributes all fail with the not-loaded error; the only
exceptions are the title property, which returns the empty string, and
get_text_from_element applied to an absent element, which returns the
empty string. -/
theorem c1_empty_state_queries (s : Scraper) (h : s.soup = none)
    (selector attributeName tag_name : String)
    (kwargs : List (String × String)) :
    s.select selector = .error .notLoaded ∧
    s.select_one selector = .error .notLoaded ∧
    s.find_all tag_name kwargs = .error .notLoaded ∧
    s.find tag_name kwargs = .error .notLoaded ∧
    s.get_text selector = .error .notLoaded ∧
    s.get_attribute selector attributeName = .error .notLoaded ∧
    s.get_all_attributes selector = .error .notLoaded ∧
    s.title = "" ∧
    s.get_text_from_element none = "" := by
  simp [Scraper.select, Scraper.select_one, Scraper.find_all, Scraper.find,
    Scraper.get_text, Scraper.get_attribute, Scraper.get_all_attributes,
    Scraper.title, Scraper.get_text_from_element, h]

/-- Witness for C1 at the concrete empty facade. -/
theorem c1_empty_state_queries_witness :
    Scraper.empty.select "li" = .error .notLoaded ∧
    Scraper.empty.select_one "li" = .error .notLoaded ∧
    Scraper.empty.find_all "li" [] = .error .notLoaded ∧
    Scraper.empty.find "li" [] = .error .notLoaded ∧
    Scraper.empty.get_text "li" = .error .notLoaded ∧
    Scraper.empty.get_attribute "li" "id" = .error .notLoaded ∧
    Scraper.empty.get_all_attributes "li" = .error .notLoaded ∧
    Scraper.empty.title = "" ∧
    Scraper.empty.get_text_from_element none = "" :=
  c1_empty_state_queries Scraper.empty rfl "li" "id" "li" []

/-- C2 (code bug): get_all_attributes cannot return the attribute values
the claim and its own docstring describe: the method signature has no
attribute parameter, so the comprehension raises NameError as soon as a
selected element exists.  Here the loaded document matches one li
element under the selector "li", and the call fails. -/
theorem c2_get_all_attributes_raises :
    (Scraper.empty.load_html sampleParse sampleMarkup).get_all_attributes "li"
      = .error .nameError ∧
    sampleSoup.select "li" = [liElement] := by
  constructor
  · rfl
  · rfl

/-- C10: constructing the facade with the empty string as URL performs
no HTTP request (the result does not depend on the HTTP oracle) and
leaves the instance in the Empty state, both fields absent, because
the constructor tests the URL by truthiness. -/
theorem c10_empty_string_url (parse : String → Soup)
    (http http2 : String → List (String × String) → HttpResult) :
    Scraper.init parse http (some "") = .ok Scraper.empty ∧
    Scraper.empty.soup = none ∧
    Scraper.empty.html_content = none ∧
    Scraper.init parse http (some "") = Scraper.init parse http2 (some "") :=
  ⟨rfl, rfl, rfl, rfl⟩

/-- C3 counterexample: a loaded facade whose document matches one li
element under "li"; the element has no href attribute, so get_attribute
returns absent even though select_one finds a match — refuting that
absent is returned exactly when no element matches. -/
theorem c3_counterexample :
    (Scraper.empty.load_html sampleParse sampleMarkup).get_attribute "li" "href"
      = .ok none ∧
    sampleSoup.select_one "li" = some liElement := by
  constructor
  · rfl
  · rfl

/-- C3 amended: get_attribute runs select_one; when a match exists it
returns that element's value for the named attribute (absent when the
attribute is not set on the element), and it returns absent whenever no
element matches the selector. -/
theorem c3_get_attribute_amended (s : Scraper) (soup : Soup)
    (h : s.soup = some soup) (selector attributeName : String) :
    s.get_attribute selector attributeName
      = .ok ((soup.select_one selector).bind (fun el => el.get attributeName)) ∧
    (soup.select_one selector = none →
      s.get_attribute selector attributeName = .ok none) := by
  constructor
  · simp only [Scraper.get_attribute, Scraper.select_one, h]
    cases soup.select_one selector with
    | none => rfl
    | some el => simp [Element.truthy]
  · intro h2
    simp [Scraper.get_attribute, Scraper.select_one, h, h2]

/-- Witness for C3 amended at the concrete loaded facade. -/
theorem c3_get_attribute_amended_witness :
    (Scraper.empty.load_html sampleParse sampleMarkup).get_attribute "li" "href"
      = .ok ((sampleSoup.select_one "li").bind (fun el => el.get "href")) ∧
    (sampleSoup.select_one "li" = none →
      (Scraper.empty.load_html sampleParse sampleMarkup).get_attribute "li" "href"
        = .ok none) :=
  c3_get_attribute_amended (Scraper.empty.load_html sampleParse sampleMarkup)
    sampleSoup rfl "li" "href"

/-- C4 counterexample: a 304 response is not 2xx, yet load_from_url
succeeds and stores the body as content, because
response.raise_for_status() in requests raises only for status codes in
[400, 600). -/
theorem c4_counterexample :
    Scraper.empty.load_from_url sampleParse http304 "http://example.com" none
      = .ok ⟨some (sampleParse "BODY-304"), some "BODY-304"⟩ := by
  rfl

/-- C4 amended: load_from_url fails with the HTTP-status error exactly
for 4xx and 5xx responses (2xx succeeds, but so do other non-2xx final
statuses such as 304), and fails with the fetch error when the transport
fails; both failures propagate to the caller. -/
theorem c4_load_errors_amended (parse : String → Soup)
    (http : String → List (String × String) → HttpResult)
    (s : Scraper) (url : String)
    (headers : Option (List (String × String))) :
    (∀ status body,
      http url (headers.getD defaultHeaders) = .response status body →
      (s.load_from_url parse http url headers
          = .error (.httpStatusError status)
        ↔ (400 ≤ status ∧ status < 600))) ∧
    (http url (headers.getD defaultHeaders) = .failure →
      s.load_from_url parse http url headers = .error .fetchError) := by
  constructor
  · intro status body hresp
    by_cases hc : 400 ≤ status ∧ status < 600
    · simp [Scraper.load_from_url, hresp, hc]
    · simp [Scraper.load_from_url, hresp, hc]
  · intro hfail
    simp [Scraper.load_from_url, hfail]

/-- Witness for C4 amended: a 404 response makes the load fail with the
HTTP-status error. -/
theorem c4_load_errors_amended_witness :
    Scraper.empty.load_from_url sampleParse http404 "http://example.com" none
      = .error (.httpStatusError 404) :=
  ((c4_load_errors_amended sampleParse http404 Scraper.empty
      "http://example.com" none).1 404 "NOT-FOUND" rfl).mpr (by decide)

/-- Helper: a successful load_from_url call comes from a response whose
status did not trip raise_for_status, and the resulting state holds
exactly the parsed body and the raw body. -/
theorem load_from_url_ok_shape (parse : String → Soup)
    (http : String → List (String × String) → HttpResult)
    (s s2 : Scraper) (url : String)
    (headers : Option (List (String × String)))
    (h : s.load_from_url parse http url headers = .ok s2) :
    ∃ status body,
      http url (headers.getD defaultHeaders) = .response status body ∧
      ¬(400 ≤ status ∧ status < 600) ∧
      s2 = ⟨some (parse body), some body⟩ := by
  simp only [Scraper.load_from_url] at h
  split at h
  · exact absurd h (by simp)
  · rename_i status body hr
    split at h
    · exact absurd h (by simp)
    · rename_i hc
      exact ⟨status, body, hr, hc, (Except.ok.inj h).symm⟩

/-- C5: every successful load replaces both fields together from the
newly loaded source: load_html yields exactly the state built from the
new markup regardless of the previous state (so a second load_html
discards the first load entirely), and a successful load_from_url
yields exactly the state built from the response body. -/
theorem c5_load_replaces_state (parse : String → Soup)
    (http : String → List (String × String) → HttpResult) :
    (∀ (s : Scraper) (m : String),
      s.load_html parse m = ⟨some (parse m), some m⟩) ∧
    (∀ (s t : Scraper) (m1 m2 : String),
      (s.load_html parse m1).load_html parse m2 = t.load_html parse m2) ∧
    (∀ (s s2 : Scraper) (url : String)
        (headers : Option (List (String × String))),
      s.load_from_url parse http url headers = .ok s2 →
      ∃ status body,
        http url (headers.getD defaultHeaders) = .response status body ∧
        s2 = ⟨some (parse body), some body⟩) := by
  refine ⟨fun s m => rfl, fun s t m1 m2 => rfl, ?_⟩
  intro s s2 url headers h
  obtain ⟨status, body, hresp, -, hs2⟩ :=
    load_from_url_ok_shape parse http s s2 url headers h
  exact ⟨status, body, hresp, hs2⟩

/-- Witness for C5 at a concrete oracle: a 200 response loads the body. -/
theorem c5_load_replaces_state_witness :
    ∃ status body,
      http200 "http://example.com" ((none : Option (List (String × String))).getD defaultHeaders)
        = .response status body ∧
      (⟨some (sampleParse "OK-BODY"), some "OK-BODY"⟩ : Scraper)
        = ⟨some (sampleParse body), some body⟩ :=
  (c5_load_replaces_state sampleParse http200).2.2 Scraper.empty
    ⟨some (sampleParse "OK-BODY"), some "OK-BODY"⟩ "http://example.com" none rfl

/-- Python truthiness of the optional URL argument of __init__: None and
the empty string are falsy. -/
def urlTruthy : Option String → Bool
  | none => false
  | some u => !(u == "")

/-- Reachable facade states, paired with whether a load operation has
completed since construction: a state is reachable from a successful
construction (with or without an initial URL), from load_html, or from
a successful load_from_url. -/
inductive Reach (parse : String → Soup)
    (http : String → List (String × String) → HttpResult) :
    Scraper → Bool → Prop where
  | ctor (url : Option String) (s : Scraper) :
      Scraper.init parse http url = .ok s → Reach parse http s (urlTruthy url)
  | loadHtml (s : Scraper) (b : Bool) (m : String) :
      Reach parse http s b → Reach parse http (s.load_html parse m) true
  | loadUrl (s s2 : Scraper) (b : Bool) (u : String)
      (headers : Option (List (String × String))) :
      Reach parse http s b → s.load_from_url parse http u headers = .ok s2 →
      Reach parse http s2 true

/-- C6: in every reachable state, the document is absent exactly when no
load has completed since construction (construction without a truthy
initial URL included); the two load operations always leave a document
present, so the only transitions are Empty to Loaded and Loaded to
Loaded, and no reachable step returns a loaded facade to the Empty
state. -/
theorem c6_document_iff_loaded (parse : String → Soup)
    (http : String → List (String × String) → HttpResult)
    (s : Scraper) (b : Bool) (h : Reach parse http s b) :
    s.soup = none ↔ b = false := by
  induction h with
  | ctor url s hinit =>
    cases url with
    | none =>
      simp only [Scraper.init] at hinit
      cases Except.ok.inj hinit
      simp [Scraper.empty, urlTruthy]
    | some u =>
      by_cases hu : u = ""
      · subst hu
        simp only [Scraper.init, if_pos rfl] at hinit
        cases Except.ok.inj hinit
        simp [Scraper.empty, urlTruthy]
      · simp only [Scraper.init, if_neg hu] at hinit
        obtain ⟨status, body, -, -, hs⟩ :=
          load_from_url_ok_shape parse http Scraper.empty s u none hinit
        subst hs
        simp [urlTruthy, hu]
  | loadHtml s b m hs ih =>
    simp [Scraper.load_html]
  | loadUrl s s2 b u headers hs hok ih =>
    obtain ⟨status, body, -, -, hs2⟩ :=
      load_from_url_ok_shape parse http s s2 u headers hok
    subst hs2
    simp

/-- Witness for C6 at the concrete empty facade, reached by construction
without a URL. -/
theorem c6_document_iff_loaded_witness :
    Scraper.empty.soup = none ↔ false = false :=
  c6_document_iff_loaded sampleParse http200 Scraper.empty false
    (Reach.ctor none Scraper.empty rfl)

/-- C7: on a loaded facade, get_text runs select on the selector,
extracts each matched element's stripped text (the same extraction
get_text_from_element performs), and joins the texts with a single space
in document order; when the selector matches zero elements, select
returns the empty list rather than an error and get_text returns the
empty string. -/
theorem c7_get_text_joins (s : Scraper) (soup : Soup)
    (h : s.soup = some soup) (selector : String) :
    s.select selector = .ok (soup.select selector) ∧
    s.get_text selector
      = .ok (" ".intercalate ((soup.select selector).map
          (fun el => s.get_text_from_element (some el)))) ∧
    (soup.select selector = [] →
      s.select selector = .ok [] ∧ s.get_text selector = .ok "") := by
  refine ⟨by simp [Scraper.select, h], ?_, ?_⟩
  · simp [Scraper.get_text, Scraper.select, Scraper.get_text_from_element, h]
  · intro he
    simp [Scraper.select, Scraper.get_text, h, he, String.intercalate]

/-- Witness for C7 at the concrete loaded facade, on a matching and on a
non-matching selector. -/
theorem c7_get_text_joins_witness :
    ((Scraper.empty.load_html sampleParse sampleMarkup).select "li"
        = .ok (sampleSoup.select "li") ∧
      (Scraper.empty.load_html sampleParse sampleMarkup).get_text "li"
        = .ok (" ".intercalate ((sampleSoup.select "li").map
            (fun el => (Scraper.empty.load_html sampleParse sampleMarkup).get_text_from_element (some el)))) ∧
      (sampleSoup.select "li" = [] →
        (Scraper.empty.load_html sampleParse sampleMarkup).select "li" = .ok [] ∧
        (Scraper.empty.load_html sampleParse sampleMarkup).get_text "li" = .ok "")) ∧
    (sampleSoup.select "p" = [] →
      (Scraper.empty.load_html sampleParse sampleMarkup).select "p" = .ok [] ∧
      (Scraper.empty.load_html sampleParse sampleMarkup).get_text "p" = .ok "") :=
  ⟨c7_get_text_joins (Scraper.empty.load_html sampleParse sampleMarkup)
      sampleSoup rfl "li",
    (c7_get_text_joins (Scraper.empty.load_html sampleParse sampleMarkup)
      sampleSoup rfl "p").2.2⟩

/-- C8: on a loaded facade, select_one returns the first element of
select whenever select is non-empty, and returns absent exactly when
select returns the empty list. -/
theorem c8_select_one_consistent (s : Scraper) (soup : Soup)
    (h : s.soup = some soup) (selector : String) :
    (∀ el rest, s.select selector = .ok (el :: rest) →
      s.select_one selector = .ok (some el)) ∧
    (s.select_one selector = .ok none ↔ s.select selector = .ok []) := by
  constructor
  · intro el rest hsel
    have hl : soup.select selector = el :: rest := by
      simpa [Scraper.select, h] using hsel
    simp [Scraper.select_one, Soup.select_one, h, hl]
  · constructor
    · intro h1
      have hl : (soup.select selector).head? = none := by
        simpa [Scraper.select_one, Soup.select_one, h] using h1
      have : soup.select selector = [] := by
        cases hsel : soup.select selector with
        | nil => rfl
        | cons a as => rw [hsel] at hl; exact absurd hl (by simp)
      simp [Scraper.select, h, this]
    · intro h1
      have hl : soup.select selector = [] := by
        simpa [Scraper.select, h] using h1
      simp [Scraper.select_one, Soup.select_one, h, hl]

/-- Witness for C8 at the concrete loaded facade: the selector "li"
matches exactly the one li element, and select_one returns it. -/
theorem c8_select_one_consistent_witness :
    (Scraper.empty.load_html sampleParse sampleMarkup).select_one "li"
      = .ok (some liElement) :=
  (c8_select_one_consistent (Scraper.empty.load_html sampleParse sampleMarkup)
    sampleSoup rfl "li").1 liElement [] rfl

/-- C9 counterexample: the empty string is a present URL argument, yet
the constructor performs no load and leaves the Empty state, while
performing load_from_url on that URL (here against an oracle answering
200) would produce a loaded state; so a present URL does not always
trigger the eager load. -/
theorem c9_counterexample :
    Scraper.init sampleParse http200 (some "") = .ok Scraper.empty ∧
    Scraper.empty.load_from_url sampleParse http200 "" none
      = .ok ⟨some (sampleParse "OK-BODY"), some "OK-BODY"⟩ ∧
    Scraper.empty.soup = none := by
  refine ⟨rfl, rfl, rfl⟩

/-- C9 amended: when the URL argument is present and non-empty (truthy),
the constructor immediately performs load_from_url on it with the
headers argument omitted; when the URL argument is absent (or the empty
string) it leaves the instance in the Empty state; and omitting the
headers makes load_from_url use exactly the mapping
[("user-agent", "my-app/0.0.1")]. -/
theorem c9_constructor_amended (parse : String → Soup)
    (http : String → List (String × String) → HttpResult) :
    (∀ u : String, u ≠ "" →
      Scraper.init parse http (some u)
        = Scraper.empty.load_from_url parse http u none) ∧
    Scraper.init parse http none = .ok Scraper.empty ∧
    defaultHeaders = [("user-agent", "my-app/0.0.1")] ∧
    (∀ (s : Scraper) (u : String),
      s.load_from_url parse http u none
        = s.load_from_url parse http u (some defaultHeaders)) := by
  refine ⟨?_, rfl, rfl, fun s u => rfl⟩
  intro u hu
  simp [Scraper.init, hu]

/-- Witness for C9 amended: at a non-empty URL the constructor equals
the eager load against the concrete 200 oracle. -/
theorem c9_constructor_amended_witness :
    Scraper.init sampleParse http200 (some "http://example.com")
      = Scraper.empty.load_from_url sampleParse http200 "http://example.com" none :=
  (c9_constructor_amended sampleParse http200).1 "http://example.com" (by decide)
